import Mathlib

/-!
Shallow embedding of the `solidaariset` front-end script, covering the two
carousel classes (`Carousel` in the sliding-track file, `CardDeck` in
`carousel.js`), the `MobileNav` drawer, and `initSmoothScrolling`.

Modelling conventions:
* Slide indices and totals are `Nat`; the page only ever passes nonnegative
  integers to `goToSlide` (dot indices, `0`, `totalSlides - 1`), so the JS
  guard `index >= 0` is the type of the argument here.
* `setInterval` / `clearInterval` are modelled by an explicit `TimerWorld`
  holding the list of live timer ids and a fresh-id counter.  Browser timer
  ids are positive integers, so ids start at 1 and the JS truthiness test
  `if (this.autoplayInterval)` coincides with `Option.isSome`.
* The 600 ms animation timeout of `CardDeck.nextSlide`/`prevSlide` is the
  separate step `CardDeck.animationDone` (the `setTimeout` callback firing).
-/

namespace Solidaariset

/-- The browser's interval-timer state: the ids of currently live (running)
intervals and the next id `setInterval` will hand out. -/
structure TimerWorld where
  nextId : Nat
  live : List Nat
deriving Repr, DecidableEq

/-- Timer state before any `setInterval` call: no live interval, ids from 1. -/
def TimerWorld.start : TimerWorld := ⟨1, []⟩

/-- `window.setInterval(...)`: registers a new repeating timer and returns its id. -/
def TimerWorld.setIntervalTimer (w : TimerWorld) : Nat × TimerWorld :=
  (w.nextId, ⟨w.nextId + 1, w.nextId :: w.live⟩)

/-- `window.clearInterval(id)`: deactivates the timer with the given id. -/
def TimerWorld.clearIntervalTimer (id : Nat) (w : TimerWorld) : TimerWorld :=
  ⟨w.nextId, w.live.erase id⟩

/-- The instance fields of the sliding-track `Carousel` class that the
navigation and autoplay methods read or write. -/
structure CarState where
  currentSlide : Nat
  totalSlides : Nat
  isPlaying : Bool
  autoplayInterval : Option Nat
deriving Repr, DecidableEq

/-- A `Carousel` instance together with the browser timer state. -/
abbrev CarTimed := CarState × TimerWorld

/-- `Carousel.nextSlide`: `this.currentSlide = (this.currentSlide + 1) % this.totalSlides`. -/
def Carousel.nextSlide (s : CarState) : CarState :=
  { s with currentSlide := (s.currentSlide + 1) % s.totalSlides }

/-- `Carousel.prevSlide`:
`this.currentSlide = this.currentSlide === 0 ? this.totalSlides - 1 : this.currentSlide - 1`. -/
def Carousel.prevSlide (s : CarState) : CarState :=
  { s with currentSlide :=
      if s.currentSlide = 0 then s.totalSlides - 1 else s.currentSlide - 1 }

/-- `Carousel.goToSlide(index)`: assigns only when `0 <= index < totalSlides`
(the lower bound is the `Nat` argument type here). -/
def Carousel.goToSlide (index : Nat) (s : CarState) : CarState :=
  if index < s.totalSlides then { s with currentSlide := index } else s

/-- `Carousel.startAutoplay`: returns unless `isPlaying`; otherwise registers a
new interval and stores its id (without clearing any previous one). -/
def Carousel.startAutoplay (st : CarTimed) : CarTimed :=
  if st.1.isPlaying then
    let p := st.2.setIntervalTimer
    ({ st.1 with autoplayInterval := some p.1 }, p.2)
  else st

/-- `Carousel.pauseAutoplay`: clears the stored interval, if any. -/
def Carousel.pauseAutoplay (st : CarTimed) : CarTimed :=
  match st.1.autoplayInterval with
  | some id => ({ st.1 with autoplayInterval := none }, st.2.clearIntervalTimer id)
  | none => st

/-- `Carousel.resumeAutoplay`: restarts only when playing and no interval is stored. -/
def Carousel.resumeAutoplay (st : CarTimed) : CarTimed :=
  if st.1.isPlaying && st.1.autoplayInterval.isNone then Carousel.startAutoplay st
  else st

/-- `Carousel.stopAutoplay`: `this.isPlaying = false; this.pauseAutoplay()`. -/
def Carousel.stopAutoplay (st : CarTimed) : CarTimed :=
  Carousel.pauseAutoplay ({ st.1 with isPlaying := false }, st.2)

/-- `Carousel.play`: `this.isPlaying = true; this.startAutoplay()`. -/
def Carousel.play (st : CarTimed) : CarTimed :=
  Carousel.startAutoplay ({ st.1 with isPlaying := true }, st.2)

/-- `Carousel.pause`: delegates to `stopAutoplay`. -/
def Carousel.pause (st : CarTimed) : CarTimed := Carousel.stopAutoplay st

/-- `Carousel.destroy`: delegates to `pauseAutoplay`. -/
def Carousel.destroy (st : CarTimed) : CarTimed := Carousel.pauseAutoplay st

/-- The keys the carousel `keydown` handlers dispatch on. -/
inductive Key where
  | arrowLeft | arrowRight | homeKey | endKey | space | enter | other
deriving Repr, DecidableEq

/-- `Carousel.handleKeydown`, per `e.key`.  Space and Enter toggle autoplay:
stop when playing, otherwise set `isPlaying = true` and start. -/
def Carousel.handleKeydown (k : Key) (st : CarTimed) : CarTimed :=
  match k with
  | .arrowLeft => (Carousel.prevSlide st.1, st.2)
  | .arrowRight => (Carousel.nextSlide st.1, st.2)
  | .homeKey => (Carousel.goToSlide 0 st.1, st.2)
  | .endKey => (Carousel.goToSlide (st.1.totalSlides - 1) st.1, st.2)
  | .space | .enter =>
      if st.1.isPlaying then Carousel.stopAutoplay st
      else Carousel.startAutoplay ({ st.1 with isPlaying := true }, st.2)
  | .other => st

/-- Constructor field values of `Carousel` before `init` runs. -/
def Carousel.mkState (n : Nat) : CarState :=
  { currentSlide := 0, totalSlides := n, isPlaying := true, autoplayInterval := none }

/-- Result of constructing a carousel: the instance plus whether `init` got past
its empty-carousel guard (and hence attached listeners and started autoplay). -/
structure InitOutcome (σ : Type) where
  st : σ
  listenersAttached : Bool
deriving Repr, DecidableEq

/-- `new Carousel(...)` / `Carousel.init`: with zero slides, `init` returns at
once; otherwise it wires listeners and calls `startAutoplay`. -/
def Carousel.init (n : Nat) : InitOutcome CarTimed :=
  let s0 : CarTimed := (Carousel.mkState n, TimerWorld.start)
  if n = 0 then ⟨s0, false⟩
  else ⟨Carousel.startAutoplay s0, true⟩

/-- The instance fields of the `CardDeck` class (carousel.js) that its
navigation and autoplay methods read or write. -/
structure DeckState where
  currentSlide : Nat
  totalSlides : Nat
  isPlaying : Bool
  autoplayInterval : Option Nat
  isAnimating : Bool
deriving Repr, DecidableEq

/-- A `CardDeck` instance together with the browser timer state. -/
abbrev DeckTimed := DeckState × TimerWorld

/-- `CardDeck.nextSlide`: returns if `isAnimating`; otherwise sets
`isAnimating`, advances modulo `totalSlides`, and schedules the 600 ms reset. -/
def CardDeck.nextSlide (d : DeckState) : DeckState :=
  if d.isAnimating then d
  else { d with isAnimating := true,
                currentSlide := (d.currentSlide + 1) % d.totalSlides }

/-- `CardDeck.prevSlide`: returns if `isAnimating`; otherwise sets
`isAnimating` and steps back (wrapping at 0). -/
def CardDeck.prevSlide (d : DeckState) : DeckState :=
  if d.isAnimating then d
  else { d with isAnimating := true,
                currentSlide :=
                  if d.currentSlide = 0 then d.totalSlides - 1 else d.currentSlide - 1 }

/-- `CardDeck.goToSlide(targetIndex)`: returns if animating or the target is the
current slide; otherwise assigns the target unchecked (no range guard, unlike
`Carousel.goToSlide`). -/
def CardDeck.goToSlide (targetIndex : Nat) (d : DeckState) : DeckState :=
  if d.isAnimating = true ∨ targetIndex = d.currentSlide then d
  else { d with currentSlide := targetIndex }

/-- The `setTimeout(() => { this.isAnimating = false }, 600)` callback firing. -/
def CardDeck.animationDone (d : DeckState) : DeckState :=
  { d with isAnimating := false }

/-- `CardDeck.startAutoplay` (line-identical to the Carousel version). -/
def CardDeck.startAutoplay (st : DeckTimed) : DeckTimed :=
  if st.1.isPlaying then
    let p := st.2.setIntervalTimer
    ({ st.1 with autoplayInterval := some p.1 }, p.2)
  else st

/-- `CardDeck.pauseAutoplay` (line-identical to the Carousel version). -/
def CardDeck.pauseAutoplay (st : DeckTimed) : DeckTimed :=
  match st.1.autoplayInterval with
  | some id => ({ st.1 with autoplayInterval := none }, st.2.clearIntervalTimer id)
  | none => st

/-- `CardDeck.resumeAutoplay` (line-identical to the Carousel version). -/
def CardDeck.resumeAutoplay (st : DeckTimed) : DeckTimed :=
  if st.1.isPlaying && st.1.autoplayInterval.isNone then CardDeck.startAutoplay st
  else st

/-- `CardDeck.stopAutoplay` (line-identical to the Carousel version). -/
def CardDeck.stopAutoplay (st : DeckTimed) : DeckTimed :=
  CardDeck.pauseAutoplay ({ st.1 with isPlaying := false }, st.2)

/-- `CardDeck.play` (line-identical to the Carousel version). -/
def CardDeck.play (st : DeckTimed) : DeckTimed :=
  CardDeck.startAutoplay ({ st.1 with isPlaying := true }, st.2)

/-- `CardDeck.pause`: delegates to `stopAutoplay`. -/
def CardDeck.pause (st : DeckTimed) : DeckTimed := CardDeck.stopAutoplay st

/-- `CardDeck.destroy`: delegates to `pauseAutoplay`. -/
def CardDeck.destroy (st : DeckTimed) : DeckTimed := CardDeck.pauseAutoplay st

/-- `CardDeck.handleKeydown`, per `e.key` (line-identical dispatch to the
Carousel version). -/
def CardDeck.handleKeydown (k : Key) (st : DeckTimed) : DeckTimed :=
  match k with
  | .arrowLeft => (CardDeck.prevSlide st.1, st.2)
  | .arrowRight => (CardDeck.nextSlide st.1, st.2)
  | .homeKey => (CardDeck.goToSlide 0 st.1, st.2)
  | .endKey => (CardDeck.goToSlide (st.1.totalSlides - 1) st.1, st.2)
  | .space | .enter =>
      if st.1.isPlaying then CardDeck.stopAutoplay st
      else CardDeck.startAutoplay ({ st.1 with isPlaying := true }, st.2)
  | .other => st

/-- Constructor field values of `CardDeck` before `init` runs. -/
def CardDeck.mkState (n : Nat) : DeckState :=
  { currentSlide := 0, totalSlides := n, isPlaying := true,
    autoplayInterval := none, isAnimating := false }

/-- `new CardDeck(...)` / `CardDeck.init`: with zero slides, `init` returns at
once; otherwise it wires listeners and calls `startAutoplay`. -/
def CardDeck.init (n : Nat) : InitOutcome DeckTimed :=
  let s0 : DeckTimed := (CardDeck.mkState n, TimerWorld.start)
  if n = 0 then ⟨s0, false⟩
  else ⟨CardDeck.startAutoplay s0, true⟩

/-- The page events wired to a carousel instance in `setupEventListeners`,
plus the timer callbacks (`autoplayTick` is the `setInterval` callback,
`animationTimeout` is the 600 ms `setTimeout` in the `CardDeck` navigation
methods) and the two public API methods the page may call (`pause`,
`destroy`).  Touch and mouse-drag handlers reach the carousel state only
through `pauseAutoplay` / `resumeAutoplay` / `nextSlide` / `prevSlide`, all
of which occur below. -/
inductive PageEvent where
  | mouseEnter | mouseLeave | focusIn | focusOut
  | tabHidden | tabVisible
  | keydown (k : Key)
  | clickPrev | clickNext | clickDot (i : Nat)
  | autoplayTick
  | animationTimeout
  | apiPause | apiDestroy
deriving Repr, DecidableEq

/-- Dispatch of one page event to the `Carousel` listeners (`animationTimeout`
does not exist for this class and is a no-op). -/
def Carousel.handleEvent : PageEvent → CarTimed → CarTimed
  | .mouseEnter, st => Carousel.pauseAutoplay st
  | .mouseLeave, st => Carousel.resumeAutoplay st
  | .focusIn, st => Carousel.pauseAutoplay st
  | .focusOut, st => Carousel.resumeAutoplay st
  | .tabHidden, st => Carousel.pauseAutoplay st
  | .tabVisible, st => Carousel.resumeAutoplay st
  | .keydown k, st => Carousel.handleKeydown k st
  | .clickPrev, st => (Carousel.prevSlide st.1, st.2)
  | .clickNext, st => (Carousel.nextSlide st.1, st.2)
  | .clickDot i, st => (Carousel.goToSlide i st.1, st.2)
  | .autoplayTick, st => (Carousel.nextSlide st.1, st.2)
  | .animationTimeout, st => st
  | .apiPause, st => Carousel.pause st
  | .apiDestroy, st => Carousel.destroy st

/-- Running a sequence of page events against a `Carousel` instance. -/
def Carousel.runEvents (es : List PageEvent) (st : CarTimed) : CarTimed :=
  es.foldl (fun a e => Carousel.handleEvent e a) st

/-- Dispatch of one page event to the `CardDeck` listeners. -/
def CardDeck.handleEvent : PageEvent → DeckTimed → DeckTimed
  | .mouseEnter, st => CardDeck.pauseAutoplay st
  | .mouseLeave, st => CardDeck.resumeAutoplay st
  | .focusIn, st => CardDeck.pauseAutoplay st
  | .focusOut, st => CardDeck.resumeAutoplay st
  | .tabHidden, st => CardDeck.pauseAutoplay st
  | .tabVisible, st => CardDeck.resumeAutoplay st
  | .keydown k, st => CardDeck.handleKeydown k st
  | .clickPrev, st => (CardDeck.prevSlide st.1, st.2)
  | .clickNext, st => (CardDeck.nextSlide st.1, st.2)
  | .clickDot i, st => (CardDeck.goToSlide i st.1, st.2)
  | .autoplayTick, st => (CardDeck.nextSlide st.1, st.2)
  | .animationTimeout, st => (CardDeck.animationDone st.1, st.2)
  | .apiPause, st => CardDeck.pause st
  | .apiDestroy, st => CardDeck.destroy st

/-- Running a sequence of page events against a `CardDeck` instance. -/
def CardDeck.runEvents (es : List PageEvent) (st : DeckTimed) : DeckTimed :=
  es.foldl (fun a e => CardDeck.handleEvent e a) st

/-- A navigation call, the interface common to both carousel classes. -/
inductive NavOp where
  | next | prev | goTo (i : Nat)
deriving Repr, DecidableEq

/-- `true` when a navigation call only uses in-range `goToSlide` targets. -/
def NavOp.inRange (n : Nat) : NavOp → Bool
  | .goTo i => decide (i < n)
  | _ => true

/-- One navigation call on a `Carousel` instance. -/
def Carousel.applyNav : NavOp → CarState → CarState
  | .next, s => Carousel.nextSlide s
  | .prev, s => Carousel.prevSlide s
  | .goTo i, s => Carousel.goToSlide i s

/-- A sequence of navigation calls on a `Carousel` instance. -/
def Carousel.runNav (ops : List NavOp) (s : CarState) : CarState :=
  ops.foldl (fun a o => Carousel.applyNav o a) s

/-- One navigation call on a `CardDeck` instance whose previous animation has
settled: the 600 ms `setTimeout` has fired (`animationDone`) before the call. -/
def CardDeck.applyNavSettled : NavOp → DeckState → DeckState
  | .next, d => CardDeck.nextSlide (CardDeck.animationDone d)
  | .prev, d => CardDeck.prevSlide (CardDeck.animationDone d)
  | .goTo i, d => CardDeck.goToSlide i (CardDeck.animationDone d)

/-- A sequence of settled navigation calls on a `CardDeck` instance. -/
def CardDeck.runNavSettled (ops : List NavOp) (d : DeckState) : DeckState :=
  ops.foldl (fun a o => CardDeck.applyNavSettled o a) d

/-- The DOM state the `MobileNav` methods read and write: the `active` class on
the nav list, the burger's `aria-expanded` attribute, and the three burger-line
inline styles. -/
structure NavState where
  navListActive : Bool
  ariaExpanded : String
  line0Transform : String
  line1Opacity : String
  line2Transform : String
deriving Repr, DecidableEq

/-- `MobileNav.openNav`: adds the `active` class, sets `aria-expanded`, and
styles the burger lines into a cross. -/
def MobileNav.openNav (_ : NavState) : NavState :=
  { navListActive := true, ariaExpanded := "true",
    line0Transform := "rotate(45deg) translate(5px, 5px)",
    line1Opacity := "0",
    line2Transform := "rotate(-45deg) translate(7px, -6px)" }

/-- `MobileNav.closeNav`: removes the `active` class, resets `aria-expanded`
and the burger-line styles. -/
def MobileNav.closeNav (_ : NavState) : NavState :=
  { navListActive := false, ariaExpanded := "false",
    line0Transform := "", line1Opacity := "", line2Transform := "" }

/-- `MobileNav.toggleNav`: closes when the `active` class is present, else opens. -/
def MobileNav.toggleNav (s : NavState) : NavState :=
  if s.navListActive then MobileNav.closeNav s else MobileNav.openNav s

/-- The page events wired to `MobileNav` in its `init`: the burger click, a
click on a nav link, a document click outside `.header__nav`, and Escape. -/
inductive NavEvent where
  | burgerClick | navLinkClick | outsideClick | escapeKeydown
deriving Repr, DecidableEq

/-- Dispatch of one event to the `MobileNav` listeners. -/
def MobileNav.handleEvent : NavEvent → NavState → NavState
  | .burgerClick, s => MobileNav.toggleNav s
  | .navLinkClick, s => MobileNav.closeNav s
  | .outsideClick, s => MobileNav.closeNav s
  | .escapeKeydown, s => MobileNav.closeNav s

/-- The whole page's mutable state: a sliding-track `Carousel` instance and a
`CardDeck` instance (each with its timers, covering whichever of the two files
the page loads) and the mobile-nav drawer.  In the source the components are
separate objects whose methods touch disjoint fields and disjoint DOM
elements. -/
structure PageState where
  car : CarState
  carTimers : TimerWorld
  deck : DeckState
  deckTimers : TimerWorld
  nav : NavState
deriving Repr, DecidableEq

/-- A page event dispatched to the `Carousel` listeners, acting on the whole
page state. -/
def PageState.applyCarouselEvent (e : PageEvent) (p : PageState) : PageState :=
  let st := Carousel.handleEvent e (p.car, p.carTimers)
  { p with car := st.1, carTimers := st.2 }

/-- A page event dispatched to the `CardDeck` listeners, acting on the whole
page state. -/
def PageState.applyDeckEvent (e : PageEvent) (p : PageState) : PageState :=
  let dt := CardDeck.handleEvent e (p.deck, p.deckTimers)
  { p with deck := dt.1, deckTimers := dt.2 }

/-- A `MobileNav` event acting on the whole page state. -/
def PageState.applyNavEvent (e : NavEvent) (p : PageState) : PageState :=
  { p with nav := MobileNav.handleEvent e p.nav }

/-- What a click on an anchor link does after `initSmoothScrolling` ran:
either the browser default (the handler returned without `preventDefault`)
or an intercepted smooth scroll to a computed document position. -/
inductive ClickOutcome where
  | defaultNav
  | smoothScrollTo (top : Int)
deriving Repr, DecidableEq

/-- The document as the smooth-scroll handler sees it: `resolve` is
`document.querySelector(href)` returning the target's `offsetTop` when the
element exists, and `headerHeight` is `.header`'s `offsetHeight`. -/
structure AnchorDoc where
  resolve : String → Option Nat
  headerHeight : Nat

/-- The click handler `initSmoothScrolling` attaches to each `a[href^="#"]`
link: skip plain `"#"`, skip a missing target, otherwise `preventDefault` and
scroll to `target.offsetTop - headerHeight`. -/
def handleAnchorClick (doc : AnchorDoc) (href : String) : ClickOutcome :=
  if href = "#" then .defaultNav
  else
    match doc.resolve href with
    | none => .defaultNav
    | some offsetTop => .smoothScrollTo ((offsetTop : Int) - (doc.headerHeight : Int))

/-! Projection lemmas for the navigation methods. -/

@[simp] lemma Carousel.nextSlide_currentSlide (s : CarState) :
    (Carousel.nextSlide s).currentSlide = (s.currentSlide + 1) % s.totalSlides := rfl

@[simp] lemma Carousel.nextSlide_totalSlides (s : CarState) :
    (Carousel.nextSlide s).totalSlides = s.totalSlides := rfl

@[simp] lemma Carousel.prevSlide_currentSlide (s : CarState) :
    (Carousel.prevSlide s).currentSlide =
      if s.currentSlide = 0 then s.totalSlides - 1 else s.currentSlide - 1 := rfl

@[simp] lemma Carousel.prevSlide_totalSlides (s : CarState) :
    (Carousel.prevSlide s).totalSlides = s.totalSlides := rfl

@[simp] lemma Carousel.goToSlide_currentSlide (i : Nat) (s : CarState) :
    (Carousel.goToSlide i s).currentSlide =
      if i < s.totalSlides then i else s.currentSlide := by
  unfold Carousel.goToSlide; split <;> rfl

@[simp] lemma Carousel.goToSlide_totalSlides (i : Nat) (s : CarState) :
    (Carousel.goToSlide i s).totalSlides = s.totalSlides := by
  unfold Carousel.goToSlide; split <;> rfl

@[simp] lemma CardDeck.deckNextSlide_currentSlide (d : DeckState) :
    (CardDeck.nextSlide d).currentSlide =
      if d.isAnimating then d.currentSlide
      else (d.currentSlide + 1) % d.totalSlides := by
  unfold CardDeck.nextSlide; split <;> simp_all

@[simp] lemma CardDeck.deckNextSlide_totalSlides (d : DeckState) :
    (CardDeck.nextSlide d).totalSlides = d.totalSlides := by
  unfold CardDeck.nextSlide; split <;> rfl

@[simp] lemma CardDeck.deckPrevSlide_currentSlide (d : DeckState) :
    (CardDeck.prevSlide d).currentSlide =
      if d.isAnimating then d.currentSlide
      else if d.currentSlide = 0 then d.totalSlides - 1 else d.currentSlide - 1 := by
  unfold CardDeck.prevSlide; split <;> simp_all

@[simp] lemma CardDeck.deckPrevSlide_totalSlides (d : DeckState) :
    (CardDeck.prevSlide d).totalSlides = d.totalSlides := by
  unfold CardDeck.prevSlide; split <;> rfl

@[simp] lemma CardDeck.deckGoToSlide_currentSlide (t : Nat) (d : DeckState) :
    (CardDeck.goToSlide t d).currentSlide =
      if d.isAnimating = true ∨ t = d.currentSlide then d.currentSlide else t := by
  unfold CardDeck.goToSlide; split <;> rfl

@[simp] lemma CardDeck.deckGoToSlide_totalSlides (t : Nat) (d : DeckState) :
    (CardDeck.goToSlide t d).totalSlides = d.totalSlides := by
  unfold CardDeck.goToSlide; split <;> rfl

@[simp] lemma CardDeck.animationDone_currentSlide (d : DeckState) :
    (CardDeck.animationDone d).currentSlide = d.currentSlide := rfl

@[simp] lemma CardDeck.animationDone_totalSlides (d : DeckState) :
    (CardDeck.animationDone d).totalSlides = d.totalSlides := rfl

@[simp] lemma CardDeck.animationDone_isAnimating (d : DeckState) :
    (CardDeck.animationDone d).isAnimating = false := rfl

/-- The source's wrap-around conditional computes the (i + n - 1) mod n of the
spec whenever the index is in range. -/
lemma wrap_back_eq_mod (i n : Nat) (h1 : 1 ≤ n) (h2 : i < n) :
    (if i = 0 then n - 1 else i - 1) = (i + n - 1) % n := by
  rcases Nat.eq_zero_or_pos i with h | h
  · subst h
    rw [if_pos rfl, Nat.zero_add, Nat.mod_eq_of_lt (by omega)]
  · rw [if_neg (by omega)]
    have e : i + n - 1 = (i - 1) + n := by omega
    rw [e, Nat.add_mod_right, Nat.mod_eq_of_lt (by omega)]

/-- Claim C2: position cycling is modular arithmetic.  With totalSlides = N >= 1
and current index i < N, `nextSlide` sets the index to (i + 1) mod N and
`prevSlide` to (i + N - 1) mod N, for the `Carousel`, and likewise for the
`CardDeck` when `isAnimating` is false. -/
theorem nav_cycling_modular (s : CarState) (d : DeckState)
    (hs1 : 1 ≤ s.totalSlides) (hs2 : s.currentSlide < s.totalSlides)
    (hd1 : 1 ≤ d.totalSlides) (hd2 : d.currentSlide < d.totalSlides)
    (hda : d.isAnimating = false) :
    (Carousel.nextSlide s).currentSlide = (s.currentSlide + 1) % s.totalSlides ∧
    (Carousel.prevSlide s).currentSlide = (s.currentSlide + s.totalSlides - 1) % s.totalSlides ∧
    (CardDeck.nextSlide d).currentSlide = (d.currentSlide + 1) % d.totalSlides ∧
    (CardDeck.prevSlide d).currentSlide = (d.currentSlide + d.totalSlides - 1) % d.totalSlides := by
  refine ⟨rfl, ?_, ?_, ?_⟩
  · rw [Carousel.prevSlide_currentSlide]
    exact wrap_back_eq_mod _ _ hs1 hs2
  · rw [CardDeck.deckNextSlide_currentSlide, hda]
    simp
  · rw [CardDeck.deckPrevSlide_currentSlide, hda]
    simpa using wrap_back_eq_mod _ _ hd1 hd2

/-- Witness for C2 at concrete states (index 2 of 3 slides). -/
theorem nav_cycling_modular_witness :
    (Carousel.nextSlide ⟨2, 3, true, none⟩).currentSlide = (2 + 1) % 3 ∧
    (Carousel.prevSlide ⟨2, 3, true, none⟩).currentSlide = (2 + 3 - 1) % 3 ∧
    (CardDeck.nextSlide ⟨2, 3, true, none, false⟩).currentSlide = (2 + 1) % 3 ∧
    (CardDeck.prevSlide ⟨2, 3, true, none, false⟩).currentSlide = (2 + 3 - 1) % 3 :=
  nav_cycling_modular ⟨2, 3, true, none⟩ ⟨2, 3, true, none, false⟩
    (by decide) (by decide) (by decide) (by decide) (by decide)

/-- Claim C1, counterexample: `CardDeck.goToSlide` has no range guard, so with
2 slides, current index 0 and no animation running, `goToSlide(5)` drives
`currentSlide` to 5, outside `0 <= currentSlide < totalSlides`. -/
theorem cardDeck_goToSlide_escapes_range :
    (CardDeck.goToSlide 5 ⟨0, 2, true, none, false⟩).currentSlide = 5 ∧
    ¬ (CardDeck.goToSlide 5 ⟨0, 2, true, none, false⟩).currentSlide < 2 := by
  decide

/-- Claim C1 (amended): starting from 0 <= currentSlide < totalSlides with
totalSlides >= 1, `nextSlide`, `prevSlide` and `goToSlide` (any argument) keep
the `Carousel` index in range, and `nextSlide`, `prevSlide` and `goToSlide`
with an in-range argument keep the `CardDeck` index in range; the unguarded
`CardDeck.goToSlide` preserves the bound only for in-range targets. -/
theorem nav_keeps_index_in_range (s : CarState) (d : DeckState) (j t : Nat)
    (hs1 : 1 ≤ s.totalSlides) (hs2 : s.currentSlide < s.totalSlides)
    (hd1 : 1 ≤ d.totalSlides) (hd2 : d.currentSlide < d.totalSlides)
    (ht : t < d.totalSlides) :
    (Carousel.nextSlide s).currentSlide < s.totalSlides ∧
    (Carousel.prevSlide s).currentSlide < s.totalSlides ∧
    (Carousel.goToSlide j s).currentSlide < s.totalSlides ∧
    (CardDeck.nextSlide d).currentSlide < d.totalSlides ∧
    (CardDeck.prevSlide d).currentSlide < d.totalSlides ∧
    (CardDeck.goToSlide t d).currentSlide < d.totalSlides := by
  refine ⟨?_, ?_, ?_, ?_, ?_, ?_⟩ <;> simp only
    [Carousel.nextSlide_currentSlide, Carousel.prevSlide_currentSlide,
     Carousel.goToSlide_currentSlide, CardDeck.deckNextSlide_currentSlide,
     CardDeck.deckPrevSlide_currentSlide, CardDeck.deckGoToSlide_currentSlide]
  · exact Nat.mod_lt _ (by omega)
  · split <;> omega
  · split <;> omega
  · split
    · exact hd2
    · exact Nat.mod_lt _ (by omega)
  · split
    · exact hd2
    · split <;> omega
  · split <;> omega

/-- Witness for C1's amended theorem at concrete states (3 slides, index 1,
target 2). -/
theorem nav_keeps_index_in_range_witness :
    (Carousel.nextSlide ⟨1, 3, true, none⟩).currentSlide < 3 ∧
    (Carousel.prevSlide ⟨1, 3, true, none⟩).currentSlide < 3 ∧
    (Carousel.goToSlide 7 ⟨1, 3, true, none⟩).currentSlide < 3 ∧
    (CardDeck.nextSlide ⟨1, 3, true, none, false⟩).currentSlide < 3 ∧
    (CardDeck.prevSlide ⟨1, 3, true, none, false⟩).currentSlide < 3 ∧
    (CardDeck.goToSlide 2 ⟨1, 3, true, none, false⟩).currentSlide < 3 :=
  nav_keeps_index_in_range ⟨1, 3, true, none⟩ ⟨1, 3, true, none, false⟩ 7 2
    (by decide) (by decide) (by decide) (by decide) (by decide)

/-- Claim C10: while `isAnimating` is true, `CardDeck.nextSlide` and
`CardDeck.prevSlide` return with the whole instance state unchanged, and
`goToSlide` aimed at the current slide changes nothing; moreover a successful
`nextSlide`/`prevSlide` (from `isAnimating = false`) does set `isAnimating`. -/
theorem deck_animation_lock (d : DeckState) :
    (d.isAnimating = true →
      CardDeck.nextSlide d = d ∧ CardDeck.prevSlide d = d) ∧
    CardDeck.goToSlide d.currentSlide d = d ∧
    (d.isAnimating = false →
      (CardDeck.nextSlide d).isAnimating = true ∧
      (CardDeck.prevSlide d).isAnimating = true) := by
  refine ⟨fun h => ?_, ?_, fun h => ?_⟩
  · unfold CardDeck.nextSlide CardDeck.prevSlide
    rw [h]
    exact ⟨rfl, rfl⟩
  · unfold CardDeck.goToSlide
    rw [if_pos (Or.inr rfl)]
  · unfold CardDeck.nextSlide CardDeck.prevSlide
    rw [h]
    exact ⟨rfl, rfl⟩

/-- Witness for C10 at concrete states: a locked deck ignores navigation, an
unlocked deck locks itself on `nextSlide`/`prevSlide`. -/
theorem deck_animation_lock_witness :
    (CardDeck.nextSlide ⟨1, 4, true, none, true⟩ = ⟨1, 4, true, none, true⟩ ∧
     CardDeck.prevSlide ⟨1, 4, true, none, true⟩ = ⟨1, 4, true, none, true⟩) ∧
    ((CardDeck.nextSlide ⟨1, 4, true, none, false⟩).isAnimating = true ∧
     (CardDeck.prevSlide ⟨1, 4, true, none, false⟩).isAnimating = true) :=
  ⟨(deck_animation_lock ⟨1, 4, true, none, true⟩).1 rfl,
   (deck_animation_lock ⟨1, 4, true, none, false⟩).2.2 rfl⟩

/-- Claim C6: the drawer is a 2-state open/close machine.  `toggleNav` opens a
closed drawer and closes an open one, `closeNav` always leaves it closed,
`openNav` always leaves it open, and both are idempotent. -/
theorem mobileNav_two_state (s : NavState) :
    (s.navListActive = true → MobileNav.toggleNav s = MobileNav.closeNav s) ∧
    (s.navListActive = false → MobileNav.toggleNav s = MobileNav.openNav s) ∧
    (MobileNav.toggleNav s).navListActive = !s.navListActive ∧
    (MobileNav.closeNav s).navListActive = false ∧
    (MobileNav.openNav s).navListActive = true ∧
    MobileNav.closeNav (MobileNav.closeNav s) = MobileNav.closeNav s ∧
    MobileNav.openNav (MobileNav.openNav s) = MobileNav.openNav s := by
  refine ⟨fun h => ?_, fun h => ?_, ?_, rfl, rfl, rfl, rfl⟩
  · simp [MobileNav.toggleNav, h]
  · simp [MobileNav.toggleNav, h]
  · cases hb : s.navListActive <;>
      simp [MobileNav.toggleNav, MobileNav.closeNav, MobileNav.openNav, hb]

/-- Witness for C6: the toggle at a concrete closed and a concrete open drawer. -/
theorem mobileNav_two_state_witness :
    MobileNav.toggleNav ⟨false, "false", "", "", ""⟩ =
      MobileNav.openNav ⟨false, "false", "", "", ""⟩ ∧
    MobileNav.toggleNav ⟨true, "true", "x", "y", "z"⟩ =
      MobileNav.closeNav ⟨true, "true", "x", "y", "z"⟩ :=
  ⟨(mobileNav_two_state ⟨false, "false", "", "", ""⟩).2.1 rfl,
   (mobileNav_two_state ⟨true, "true", "x", "y", "z"⟩).1 rfl⟩

/-- Claim C7: component independence.  Every `MobileNav` listener leaves both
the `Carousel` and the `CardDeck` instance fields (`currentSlide`,
`isPlaying`, `autoplayInterval`, `isAnimating`, ...) and their timers
untouched, and every `Carousel` or `CardDeck` listener leaves the drawer
state untouched; on the combined page state the components write disjoint
parts. -/
theorem components_independent (p : PageState) (e : PageEvent) (ne : NavEvent) :
    (PageState.applyNavEvent ne p).car = p.car ∧
    (PageState.applyNavEvent ne p).carTimers = p.carTimers ∧
    (PageState.applyNavEvent ne p).deck = p.deck ∧
    (PageState.applyNavEvent ne p).deckTimers = p.deckTimers ∧
    (PageState.applyCarouselEvent e p).nav = p.nav ∧
    (PageState.applyDeckEvent e p).nav = p.nav :=
  ⟨rfl, rfl, rfl, rfl, rfl, rfl⟩

/-- Claim C8: anchor click interception is guarded.  A click on a link with
href exactly `"#"`, or whose target does not exist, is left to the browser
default; when the target exists the click is intercepted and scrolls to the
target's `offsetTop` minus the header height. -/
theorem smooth_scroll_guard (doc : AnchorDoc) (href : String) (t : Nat) :
    (href = "#" → handleAnchorClick doc href = ClickOutcome.defaultNav) ∧
    (doc.resolve href = none → handleAnchorClick doc href = ClickOutcome.defaultNav) ∧
    (href ≠ "#" → doc.resolve href = some t →
      handleAnchorClick doc href =
        ClickOutcome.smoothScrollTo ((t : Int) - (doc.headerHeight : Int))) := by
  refine ⟨fun h => ?_, fun h => ?_, fun h1 h2 => ?_⟩
  · simp [handleAnchorClick, h]
  · by_cases h' : href = "#"
    · simp [handleAnchorClick, h']
    · simp [handleAnchorClick, h', h]
  · simp [handleAnchorClick, h1, h2]

/-- Sample document for the smooth-scroll witness: only `"#about"` resolves,
to an element at `offsetTop` 100, under a 64 px header. -/
def sampleDoc : AnchorDoc :=
  ⟨fun s => if s = "#about" then some 100 else none, 64⟩

/-- Witness for C8 on `sampleDoc`: bare hash and missing target fall through,
an existing target is intercepted. -/
theorem smooth_scroll_guard_witness :
    handleAnchorClick sampleDoc "#" = ClickOutcome.defaultNav ∧
    handleAnchorClick sampleDoc "#missing" = ClickOutcome.defaultNav ∧
    handleAnchorClick sampleDoc "#about" =
      ClickOutcome.smoothScrollTo ((100 : Int) - (64 : Int)) :=
  ⟨(smooth_scroll_guard sampleDoc "#" 0).1 rfl,
   (smooth_scroll_guard sampleDoc "#missing" 0).2.1 (by simp [sampleDoc]),
   (smooth_scroll_guard sampleDoc "#about" 100).2.2 (by decide) (by simp [sampleDoc])⟩

/-- Claim C9: the empty-carousel guard.  Constructing either class over zero
slides makes `init` return immediately: no listeners attached, no autoplay
interval stored, no live timer.  Under totalSlides >= 1 (and an in-range
current index) the wrap-around updates of `nextSlide`/`prevSlide` stay below
`totalSlides`, so the modulo is never taken with divisor 0. -/
theorem empty_carousel_init_guard :
    ((Carousel.init 0).listenersAttached = false ∧
     (Carousel.init 0).st.1.autoplayInterval = none ∧
     (Carousel.init 0).st.2.live = [] ∧
     (CardDeck.init 0).listenersAttached = false ∧
     (CardDeck.init 0).st.1.autoplayInterval = none ∧
     (CardDeck.init 0).st.2.live = []) ∧
    (∀ s : CarState, 1 ≤ s.totalSlides → s.currentSlide < s.totalSlides →
      (Carousel.nextSlide s).currentSlide < s.totalSlides ∧
      (Carousel.prevSlide s).currentSlide < s.totalSlides) ∧
    (∀ d : DeckState, 1 ≤ d.totalSlides → d.currentSlide < d.totalSlides →
      (CardDeck.nextSlide d).currentSlide < d.totalSlides ∧
      (CardDeck.prevSlide d).currentSlide < d.totalSlides) := by
  refine ⟨by decide, fun s h1 h2 => ⟨?_, ?_⟩, fun d h1 h2 => ⟨?_, ?_⟩⟩
  · simp only [Carousel.nextSlide_currentSlide]
    exact Nat.mod_lt _ (by omega)
  · simp only [Carousel.prevSlide_currentSlide]
    split <;> omega
  · simp only [CardDeck.deckNextSlide_currentSlide]
    split
    · exact h2
    · exact Nat.mod_lt _ (by omega)
  · simp only [CardDeck.deckPrevSlide_currentSlide]
    split
    · exact h2
    · split <;> omega

/-- Witness for C9's quantified part at one-slide instances. -/
theorem empty_carousel_init_guard_witness :
    (Carousel.nextSlide ⟨0, 1, true, none⟩).currentSlide < 1 ∧
    (CardDeck.prevSlide ⟨0, 1, true, none, false⟩).currentSlide < 1 :=
  ⟨(empty_carousel_init_guard.2.1 ⟨0, 1, true, none⟩ (by decide) (by decide)).1,
   (empty_carousel_init_guard.2.2 ⟨0, 1, true, none, false⟩ (by decide) (by decide)).2⟩

/-! Navigation preserves the slide totals. -/

@[simp] lemma Carousel.applyNav_totalSlides (o : NavOp) (s : CarState) :
    (Carousel.applyNav o s).totalSlides = s.totalSlides := by
  cases o <;> simp [Carousel.applyNav]

@[simp] lemma CardDeck.applyNavSettled_totalSlides (o : NavOp) (d : DeckState) :
    (CardDeck.applyNavSettled o d).totalSlides = d.totalSlides := by
  cases o <;> simp [CardDeck.applyNavSettled]

/-- One settled navigation call keeps the two carousel styles' indices equal
and in range, provided `goToSlide` targets are in range. -/
lemma applyNav_step_eq (o : NavOp) (s : CarState) (d : DeckState)
    (ht : s.totalSlides = d.totalSlides) (h1 : 1 ≤ s.totalSlides)
    (hcs : s.currentSlide = d.currentSlide) (hlt : s.currentSlide < s.totalSlides)
    (hin : o.inRange s.totalSlides = true) :
    (Carousel.applyNav o s).currentSlide = (CardDeck.applyNavSettled o d).currentSlide ∧
    (Carousel.applyNav o s).currentSlide < s.totalSlides := by
  cases o with
  | next =>
      simp only [Carousel.applyNav, CardDeck.applyNavSettled,
        Carousel.nextSlide_currentSlide, CardDeck.deckNextSlide_currentSlide,
        CardDeck.animationDone_isAnimating, CardDeck.animationDone_currentSlide,
        CardDeck.animationDone_totalSlides, if_false, Bool.false_eq_true]
      exact ⟨by rw [ht, hcs], Nat.mod_lt _ (by omega)⟩
  | prev =>
      simp only [Carousel.applyNav, CardDeck.applyNavSettled,
        Carousel.prevSlide_currentSlide, CardDeck.deckPrevSlide_currentSlide,
        CardDeck.animationDone_isAnimating, CardDeck.animationDone_currentSlide,
        CardDeck.animationDone_totalSlides, if_false, Bool.false_eq_true]
      refine ⟨by rw [ht, hcs], ?_⟩
      split <;> omega
  | goTo i =>
      have hi : i < s.totalSlides := by
        simpa [NavOp.inRange] using hin
      simp only [Carousel.applyNav, CardDeck.applyNavSettled,
        Carousel.goToSlide_currentSlide, CardDeck.deckGoToSlide_currentSlide,
        CardDeck.animationDone_isAnimating, CardDeck.animationDone_currentSlide,
        CardDeck.animationDone_totalSlides, if_pos hi, Bool.false_eq_true,
        false_or]
      refine ⟨?_, hi⟩
      split <;> omega

/-- Along a whole sequence of settled navigation calls, the sliding-track
`Carousel` and the `CardDeck` keep the same current index. -/
lemma runNav_currentSlide_eq (ops : List NavOp) :
    ∀ (s : CarState) (d : DeckState),
      s.totalSlides = d.totalSlides → 1 ≤ s.totalSlides →
      s.currentSlide = d.currentSlide → s.currentSlide < s.totalSlides →
      (∀ o ∈ ops, o.inRange s.totalSlides = true) →
      (Carousel.runNav ops s).currentSlide =
        (CardDeck.runNavSettled ops d).currentSlide := by
  induction ops with
  | nil => exact fun s d _ _ hcs _ _ => hcs
  | cons o rest ih =>
      intro s d ht h1 hcs hlt hin
      have hino : o.inRange s.totalSlides = true := hin o (List.mem_cons_self o rest)
      have hstep := applyNav_step_eq o s d ht h1 hcs hlt hino
      have hrec := ih (Carousel.applyNav o s) (CardDeck.applyNavSettled o d)
        (by rw [Carousel.applyNav_totalSlides, CardDeck.applyNavSettled_totalSlides, ht])
        (by rw [Carousel.applyNav_totalSlides]; exact h1)
        hstep.1
        (by rw [Carousel.applyNav_totalSlides]; exact hstep.2)
        (fun o' ho' => by
          rw [Carousel.applyNav_totalSlides]
          exact hin o' (List.mem_cons_of_mem _ ho'))
      exact hrec

/-- Claim C5, counterexample: the two styles diverge on an out-of-range
`goToSlide`.  With 2 slides, starting at index 0, the single call
`goToSlide(5)` leaves the `Carousel` at 0 (range guard) but drives the
`CardDeck` to 5 (no guard). -/
theorem goToSlide_distinguishes_styles :
    (Carousel.runNav [NavOp.goTo 5] ⟨0, 2, true, none⟩).currentSlide = 0 ∧
    (CardDeck.runNavSettled [NavOp.goTo 5] ⟨0, 2, true, none, false⟩).currentSlide = 5 := by
  decide

/-- Claim C5 (amended): for instances over the same totalSlides >= 1, equal
in-range starting indices, and any sequence of navigation calls whose
`goToSlide` targets are in range, executed with each `CardDeck` animation
settled before the next call, both styles end at the same `currentSlide`. -/
theorem styles_equivalent_on_guarded_nav (ops : List NavOp) (s : CarState) (d : DeckState)
    (ht : s.totalSlides = d.totalSlides) (h1 : 1 ≤ s.totalSlides)
    (hcs : s.currentSlide = d.currentSlide) (hlt : s.currentSlide < s.totalSlides)
    (hin : ∀ o ∈ ops, o.inRange s.totalSlides = true) :
    (Carousel.runNav ops s).currentSlide =
      (CardDeck.runNavSettled ops d).currentSlide :=
  runNav_currentSlide_eq ops s d ht h1 hcs hlt hin

/-- Witness for C5's amended theorem: a concrete mixed sequence over 3 slides. -/
theorem styles_equivalent_on_guarded_nav_witness :
    (Carousel.runNav [NavOp.next, NavOp.goTo 2, NavOp.prev, NavOp.prev, NavOp.next]
        ⟨0, 3, true, none⟩).currentSlide =
    (CardDeck.runNavSettled [NavOp.next, NavOp.goTo 2, NavOp.prev, NavOp.prev, NavOp.next]
        ⟨0, 3, true, none, false⟩).currentSlide :=
  styles_equivalent_on_guarded_nav _ ⟨0, 3, true, none⟩ ⟨0, 3, true, none, false⟩
    rfl (by decide) rfl (by decide) (by decide)

/-! Autoplay projections: navigation never touches the playing flag or the
stored interval. -/

@[simp] lemma Carousel.nextSlide_isPlaying (s : CarState) :
    (Carousel.nextSlide s).isPlaying = s.isPlaying := rfl

@[simp] lemma Carousel.nextSlide_autoplayInterval (s : CarState) :
    (Carousel.nextSlide s).autoplayInterval = s.autoplayInterval := rfl

@[simp] lemma Carousel.prevSlide_isPlaying (s : CarState) :
    (Carousel.prevSlide s).isPlaying = s.isPlaying := rfl

@[simp] lemma Carousel.prevSlide_autoplayInterval (s : CarState) :
    (Carousel.prevSlide s).autoplayInterval = s.autoplayInterval := rfl

@[simp] lemma Carousel.goToSlide_isPlaying (i : Nat) (s : CarState) :
    (Carousel.goToSlide i s).isPlaying = s.isPlaying := by
  unfold Carousel.goToSlide; split <;> rfl

@[simp] lemma Carousel.goToSlide_autoplayInterval (i : Nat) (s : CarState) :
    (Carousel.goToSlide i s).autoplayInterval = s.autoplayInterval := by
  unfold Carousel.goToSlide; split <;> rfl

/-- The timer-lifecycle invariant of a carousel instance: the live intervals
are exactly the one whose id is stored in `autoplayInterval` (so never two),
and a stopped carousel stores no interval. -/
def CarInv (st : CarTimed) : Prop :=
  st.2.live = st.1.autoplayInterval.toList ∧
  (st.1.isPlaying = false → st.1.autoplayInterval = none)

lemma carInv_of_fields {s s' : CarState} {w : TimerWorld}
    (hp : s'.isPlaying = s.isPlaying) (hi : s'.autoplayInterval = s.autoplayInterval)
    (h : CarInv (s, w)) : CarInv (s', w) := by
  obtain ⟨hlive, hplay⟩ := h
  refine ⟨?_, fun hf => ?_⟩
  · rw [hi]; exact hlive
  · rw [hi]; exact hplay (by rw [← hp]; exact hf)

lemma carInv_pauseAutoplay {st : CarTimed}
    (hlive : st.2.live = st.1.autoplayInterval.toList) :
    CarInv (Carousel.pauseAutoplay st) := by
  obtain ⟨s, w⟩ := st
  unfold Carousel.pauseAutoplay
  cases hsi : s.autoplayInterval with
  | none =>
      exact ⟨hlive, fun _ => hsi⟩
  | some id =>
      have hl : w.live = [id] := by rw [hsi] at hlive; simpa using hlive
      refine ⟨?_, fun _ => rfl⟩
      show (w.clearIntervalTimer id).live = ([] : List Nat)
      unfold TimerWorld.clearIntervalTimer
      rw [hl]
      simp

lemma carInv_startAutoplay_of_none {st : CarTimed}
    (hlive : st.2.live = st.1.autoplayInterval.toList)
    (hnone : st.1.autoplayInterval = none) :
    CarInv (Carousel.startAutoplay st) := by
  obtain ⟨s, w⟩ := st
  have hn : s.autoplayInterval = none := hnone
  have hl : w.live = [] := by simpa [hn] using hlive
  unfold Carousel.startAutoplay
  cases hp : s.isPlaying with
  | false =>
      simp only [hp, Bool.false_eq_true, if_false]
      exact ⟨hlive, fun _ => hnone⟩
  | true =>
      simp only [hp, if_true]
      refine ⟨?_, ?_⟩
      · simp [TimerWorld.setIntervalTimer, hl]
      · simp [hp]

lemma carInv_resumeAutoplay {st : CarTimed} (h : CarInv st) :
    CarInv (Carousel.resumeAutoplay st) := by
  unfold Carousel.resumeAutoplay
  split
  · rename_i hc
    have hnone : st.1.autoplayInterval = none := by
      have := (Bool.and_eq_true _ _).mp hc
      exact Option.isNone_iff_eq_none.mp this.2
    exact carInv_startAutoplay_of_none h.1 hnone
  · exact h

lemma carInv_stopAutoplay {st : CarTimed} (h : CarInv st) :
    CarInv (Carousel.stopAutoplay st) := by
  unfold Carousel.stopAutoplay
  exact carInv_pauseAutoplay (by simpa using h.1)

lemma carInv_handleKeydown (k : Key) {st : CarTimed} (h : CarInv st) :
    CarInv (Carousel.handleKeydown k st) := by
  obtain ⟨hlive, hplay⟩ := h
  cases k with
  | arrowLeft => exact carInv_of_fields (by simp) (by simp) ⟨hlive, hplay⟩
  | arrowRight => exact carInv_of_fields (by simp) (by simp) ⟨hlive, hplay⟩
  | homeKey => exact carInv_of_fields (by simp) (by simp) ⟨hlive, hplay⟩
  | endKey => exact carInv_of_fields (by simp) (by simp) ⟨hlive, hplay⟩
  | other => exact ⟨hlive, hplay⟩
  | space =>
      unfold Carousel.handleKeydown
      cases hp : st.1.isPlaying with
      | true =>
          simp only [hp, if_true]
          exact carInv_stopAutoplay ⟨hlive, hplay⟩
      | false =>
          simp only [hp, Bool.false_eq_true, if_false]
          exact carInv_startAutoplay_of_none (by simpa using hlive) (hplay hp)
  | enter =>
      unfold Carousel.handleKeydown
      cases hp : st.1.isPlaying with
      | true =>
          simp only [hp, if_true]
          exact carInv_stopAutoplay ⟨hlive, hplay⟩
      | false =>
          simp only [hp, Bool.false_eq_true, if_false]
          exact carInv_startAutoplay_of_none (by simpa using hlive) (hplay hp)

lemma carInv_handleEvent (e : PageEvent) {st : CarTimed} (h : CarInv st) :
    CarInv (Carousel.handleEvent e st) := by
  cases e with
  | mouseEnter => exact carInv_pauseAutoplay h.1
  | mouseLeave => exact carInv_resumeAutoplay h
  | focusIn => exact carInv_pauseAutoplay h.1
  | focusOut => exact carInv_resumeAutoplay h
  | tabHidden => exact carInv_pauseAutoplay h.1
  | tabVisible => exact carInv_resumeAutoplay h
  | keydown k => exact carInv_handleKeydown k h
  | clickPrev => exact carInv_of_fields (by simp) (by simp) h
  | clickNext => exact carInv_of_fields (by simp) (by simp) h
  | clickDot i => exact carInv_of_fields (by simp) (by simp) h
  | autoplayTick => exact carInv_of_fields (by simp) (by simp) h
  | animationTimeout => exact h
  | apiPause => exact carInv_stopAutoplay h
  | apiDestroy => exact carInv_pauseAutoplay h.1

lemma carInv_runEvents (es : List PageEvent) :
    ∀ {st : CarTimed}, CarInv st → CarInv (Carousel.runEvents es st) := by
  induction es with
  | nil => exact fun h => h
  | cons e rest ih => exact fun h => ih (carInv_handleEvent e h)

lemma carInv_init (n : Nat) : CarInv (Carousel.init n).st := by
  unfold Carousel.init
  split
  · exact ⟨rfl, fun _ => rfl⟩
  · exact carInv_startAutoplay_of_none rfl rfl

lemma carInv_live_short {st : CarTimed} (h : CarInv st) : st.2.live.length ≤ 1 := by
  rw [h.1]
  cases st.1.autoplayInterval <;> simp [Option.toList]

lemma carInv_pause_clears {st : CarTimed} (h : CarInv st) :
    (Carousel.pauseAutoplay st).2.live = [] := by
  obtain ⟨s, w⟩ := st
  obtain ⟨hlive, _⟩ := h
  unfold Carousel.pauseAutoplay
  cases hsi : s.autoplayInterval with
  | none =>
      rw [hsi] at hlive
      simpa using hlive
  | some id =>
      have hl : w.live = [id] := by rw [hsi] at hlive; simpa using hlive
      show (w.clearIntervalTimer id).live = ([] : List Nat)
      unfold TimerWorld.clearIntervalTimer
      rw [hl]
      simp

@[simp] lemma CardDeck.deckNextSlide_isPlaying (d : DeckState) :
    (CardDeck.nextSlide d).isPlaying = d.isPlaying := by
  unfold CardDeck.nextSlide; split <;> rfl

@[simp] lemma CardDeck.deckNextSlide_autoplayInterval (d : DeckState) :
    (CardDeck.nextSlide d).autoplayInterval = d.autoplayInterval := by
  unfold CardDeck.nextSlide; split <;> rfl

@[simp] lemma CardDeck.deckPrevSlide_isPlaying (d : DeckState) :
    (CardDeck.prevSlide d).isPlaying = d.isPlaying := by
  unfold CardDeck.prevSlide; split <;> rfl

@[simp] lemma CardDeck.deckPrevSlide_autoplayInterval (d : DeckState) :
    (CardDeck.prevSlide d).autoplayInterval = d.autoplayInterval := by
  unfold CardDeck.prevSlide; split <;> rfl

@[simp] lemma CardDeck.deckGoToSlide_isPlaying (t : Nat) (d : DeckState) :
    (CardDeck.goToSlide t d).isPlaying = d.isPlaying := by
  unfold CardDeck.goToSlide; split <;> rfl

@[simp] lemma CardDeck.deckGoToSlide_autoplayInterval (t : Nat) (d : DeckState) :
    (CardDeck.goToSlide t d).autoplayInterval = d.autoplayInterval := by
  unfold CardDeck.goToSlide; split <;> rfl

@[simp] lemma CardDeck.animationDone_isPlaying (d : DeckState) :
    (CardDeck.animationDone d).isPlaying = d.isPlaying := rfl

@[simp] lemma CardDeck.animationDone_autoplayInterval (d : DeckState) :
    (CardDeck.animationDone d).autoplayInterval = d.autoplayInterval := rfl

/-- The timer-lifecycle invariant of a `CardDeck` instance, mirroring `CarInv`. -/
def DeckInv (st : DeckTimed) : Prop :=
  st.2.live = st.1.autoplayInterval.toList ∧
  (st.1.isPlaying = false → st.1.autoplayInterval = none)

lemma deckInv_of_fields {d d' : DeckState} {w : TimerWorld}
    (hp : d'.isPlaying = d.isPlaying) (hi : d'.autoplayInterval = d.autoplayInterval)
    (h : DeckInv (d, w)) : DeckInv (d', w) := by
  obtain ⟨hlive, hplay⟩ := h
  refine ⟨?_, fun hf => ?_⟩
  · rw [hi]; exact hlive
  · rw [hi]; exact hplay (by rw [← hp]; exact hf)

lemma deckInv_pauseAutoplay {st : DeckTimed}
    (hlive : st.2.live = st.1.autoplayInterval.toList) :
    DeckInv (CardDeck.pauseAutoplay st) := by
  obtain ⟨d, w⟩ := st
  unfold CardDeck.pauseAutoplay
  cases hsi : d.autoplayInterval with
  | none =>
      exact ⟨hlive, fun _ => hsi⟩
  | some id =>
      have hl : w.live = [id] := by rw [hsi] at hlive; simpa using hlive
      refine ⟨?_, fun _ => rfl⟩
      show (w.clearIntervalTimer id).live = ([] : List Nat)
      unfold TimerWorld.clearIntervalTimer
      rw [hl]
      simp

lemma deckInv_startAutoplay_of_none {st : DeckTimed}
    (hlive : st.2.live = st.1.autoplayInterval.toList)
    (hnone : st.1.autoplayInterval = none) :
    DeckInv (CardDeck.startAutoplay st) := by
  obtain ⟨d, w⟩ := st
  have hn : d.autoplayInterval = none := hnone
  have hl : w.live = [] := by simpa [hn] using hlive
  unfold CardDeck.startAutoplay
  cases hp : d.isPlaying with
  | false =>
      simp only [hp, Bool.false_eq_true, if_false]
      exact ⟨hlive, fun _ => hnone⟩
  | true =>
      simp only [hp, if_true]
      refine ⟨?_, ?_⟩
      · simp [TimerWorld.setIntervalTimer, hl]
      · simp [hp]

lemma deckInv_resumeAutoplay {st : DeckTimed} (h : DeckInv st) :
    DeckInv (CardDeck.resumeAutoplay st) := by
  unfold CardDeck.resumeAutoplay
  split
  · rename_i hc
    have hnone : st.1.autoplayInterval = none := by
      have := (Bool.and_eq_true _ _).mp hc
      exact Option.isNone_iff_eq_none.mp this.2
    exact deckInv_startAutoplay_of_none h.1 hnone
  · exact h

lemma deckInv_stopAutoplay {st : DeckTimed} (h : DeckInv st) :
    DeckInv (CardDeck.stopAutoplay st) := by
  unfold CardDeck.stopAutoplay
  exact deckInv_pauseAutoplay (by simpa using h.1)

lemma deckInv_handleKeydown (k : Key) {st : DeckTimed} (h : DeckInv st) :
    DeckInv (CardDeck.handleKeydown k st) := by
  obtain ⟨hlive, hplay⟩ := h
  cases k with
  | arrowLeft => exact deckInv_of_fields (by simp) (by simp) ⟨hlive, hplay⟩
  | arrowRight => exact deckInv_of_fields (by simp) (by simp) ⟨hlive, hplay⟩
  | homeKey => exact deckInv_of_fields (by simp) (by simp) ⟨hlive, hplay⟩
  | endKey => exact deckInv_of_fields (by simp) (by simp) ⟨hlive, hplay⟩
  | other => exact ⟨hlive, hplay⟩
  | space =>
      unfold CardDeck.handleKeydown
      cases hp : st.1.isPlaying with
      | true =>
          simp only [hp, if_true]
          exact deckInv_stopAutoplay ⟨hlive, hplay⟩
      | false =>
          simp only [hp, Bool.false_eq_true, if_false]
          exact deckInv_startAutoplay_of_none (by simpa using hlive) (hplay hp)
  | enter =>
      unfold CardDeck.handleKeydown
      cases hp : st.1.isPlaying with
      | true =>
          simp only [hp, if_true]
          exact deckInv_stopAutoplay ⟨hlive, hplay⟩
      | false =>
          simp only [hp, Bool.false_eq_true, if_false]
          exact deckInv_startAutoplay_of_none (by simpa using hlive) (hplay hp)

lemma deckInv_handleEvent (e : PageEvent) {st : DeckTimed} (h : DeckInv st) :
    DeckInv (CardDeck.handleEvent e st) := by
  cases e with
  | mouseEnter => exact deckInv_pauseAutoplay h.1
  | mouseLeave => exact deckInv_resumeAutoplay h
  | focusIn => exact deckInv_pauseAutoplay h.1
  | focusOut => exact deckInv_resumeAutoplay h
  | tabHidden => exact deckInv_pauseAutoplay h.1
  | tabVisible => exact deckInv_resumeAutoplay h
  | keydown k => exact deckInv_handleKeydown k h
  | clickPrev => exact deckInv_of_fields (by simp) (by simp) h
  | clickNext => exact deckInv_of_fields (by simp) (by simp) h
  | clickDot i => exact deckInv_of_fields (by simp) (by simp) h
  | autoplayTick => exact deckInv_of_fields (by simp) (by simp) h
  | animationTimeout => exact deckInv_of_fields (by simp) (by simp) h
  | apiPause => exact deckInv_stopAutoplay h
  | apiDestroy => exact deckInv_pauseAutoplay h.1

lemma deckInv_runEvents (es : List PageEvent) :
    ∀ {st : DeckTimed}, DeckInv st → DeckInv (CardDeck.runEvents es st) := by
  induction es with
  | nil => exact fun h => h
  | cons e rest ih => exact fun h => ih (deckInv_handleEvent e h)

lemma deckInv_init (n : Nat) : DeckInv (CardDeck.init n).st := by
  unfold CardDeck.init
  split
  · exact ⟨rfl, fun _ => rfl⟩
  · exact deckInv_startAutoplay_of_none rfl rfl

lemma deckInv_live_short {st : DeckTimed} (h : DeckInv st) : st.2.live.length ≤ 1 := by
  rw [h.1]
  cases st.1.autoplayInterval <;> simp [Option.toList]

lemma deckInv_pause_clears {st : DeckTimed} (h : DeckInv st) :
    (CardDeck.pauseAutoplay st).2.live = [] := by
  obtain ⟨d, w⟩ := st
  obtain ⟨hlive, _⟩ := h
  unfold CardDeck.pauseAutoplay
  cases hsi : d.autoplayInterval with
  | none =>
      rw [hsi] at hlive
      simpa using hlive
  | some id =>
      have hl : w.live = [id] := by rw [hsi] at hlive; simpa using hlive
      show (w.clearIntervalTimer id).live = []
      unfold TimerWorld.clearIntervalTimer
      rw [hl]
      simp

/-- Claim C3, counterexample: `play` called on a freshly initialised (playing)
instance registers a second interval while the first is still live, for both
classes: `play` sets `isPlaying` and calls the unguarded `startAutoplay`,
which overwrites `autoplayInterval` without clearing the running timer. -/
theorem play_leaks_second_interval :
    ((Carousel.init 3).st.2.live.length = 1 ∧
     (Carousel.play (Carousel.init 3).st).2.live.length = 2) ∧
    ((CardDeck.init 3).st.2.live.length = 1 ∧
     (CardDeck.play (CardDeck.init 3).st).2.live.length = 2) := by
  decide

/-- Claim C3 (amended): along every sequence of the events the page actually
wires up (pause/resume from hover, focus, touch and tab visibility, the
Space/Enter toggle, navigation, autoplay ticks, `pause`/`destroy`) from a
freshly constructed instance, at most one interval is ever live, and
`pauseAutoplay` deactivates the active one.  `play` is excluded: it can leak
a second interval (see the counterexample). -/
theorem single_autoplay_interval (n : Nat) (es : List PageEvent) :
    (Carousel.runEvents es (Carousel.init n).st).2.live.length ≤ 1 ∧
    (Carousel.pauseAutoplay (Carousel.runEvents es (Carousel.init n).st)).2.live = [] ∧
    (CardDeck.runEvents es (CardDeck.init n).st).2.live.length ≤ 1 ∧
    (CardDeck.pauseAutoplay (CardDeck.runEvents es (CardDeck.init n).st)).2.live = [] := by
  have hc := carInv_runEvents es (carInv_init n)
  have hd := deckInv_runEvents es (deckInv_init n)
  exact ⟨carInv_live_short hc, carInv_pause_clears hc,
         deckInv_live_short hd, deckInv_pause_clears hd⟩

/-- Claim C4: Space/Enter flips `isPlaying` (stop when playing, start when
stopped) and afterwards an interval id is stored exactly when `isPlaying`;
`pauseAutoplay` clears the interval and `resumeAutoplay` restores it (when
playing with none stored), neither changing `isPlaying`.  Both classes. -/
theorem autoplay_toggle (st : CarTimed) (dt : DeckTimed) :
    ((Carousel.handleKeydown Key.space st).1.isPlaying = !st.1.isPlaying) ∧
    ((Carousel.handleKeydown Key.enter st).1.isPlaying = !st.1.isPlaying) ∧
    ((Carousel.handleKeydown Key.space st).1.autoplayInterval.isSome =
      (Carousel.handleKeydown Key.space st).1.isPlaying) ∧
    ((Carousel.pauseAutoplay st).1.isPlaying = st.1.isPlaying) ∧
    ((Carousel.resumeAutoplay st).1.isPlaying = st.1.isPlaying) ∧
    ((Carousel.pauseAutoplay st).1.autoplayInterval = none) ∧
    (st.1.isPlaying = true → st.1.autoplayInterval = none →
      (Carousel.resumeAutoplay st).1.autoplayInterval.isSome = true) ∧
    ((CardDeck.handleKeydown Key.space dt).1.isPlaying = !dt.1.isPlaying) ∧
    ((CardDeck.handleKeydown Key.enter dt).1.isPlaying = !dt.1.isPlaying) ∧
    ((CardDeck.handleKeydown Key.space dt).1.autoplayInterval.isSome =
      (CardDeck.handleKeydown Key.space dt).1.isPlaying) ∧
    ((CardDeck.pauseAutoplay dt).1.isPlaying = dt.1.isPlaying) ∧
    ((CardDeck.resumeAutoplay dt).1.isPlaying = dt.1.isPlaying) ∧
    ((CardDeck.pauseAutoplay dt).1.autoplayInterval = none) ∧
    (dt.1.isPlaying = true → dt.1.autoplayInterval = none →
      (CardDeck.resumeAutoplay dt).1.autoplayInterval.isSome = true) := by
  obtain ⟨s, w⟩ := st
  obtain ⟨d, v⟩ := dt
  obtain ⟨cs, ts, sp, si⟩ := s
  obtain ⟨dc, dts, dp, di, da⟩ := d
  cases sp <;> cases dp <;> cases si <;> cases di <;>
    simp [Carousel.handleKeydown, Carousel.stopAutoplay, Carousel.startAutoplay,
      Carousel.pauseAutoplay, Carousel.resumeAutoplay,
      CardDeck.handleKeydown, CardDeck.stopAutoplay, CardDeck.startAutoplay,
      CardDeck.pauseAutoplay, CardDeck.resumeAutoplay,
      TimerWorld.setIntervalTimer, TimerWorld.clearIntervalTimer]

/-- Witness for C4's conditional conjuncts at a concrete playing state with no
stored interval: `resumeAutoplay` restores the interval on both classes. -/
theorem autoplay_toggle_witness :
    (Carousel.resumeAutoplay
        ((⟨0, 3, true, none⟩ : CarState), (⟨1, []⟩ : TimerWorld))).1.autoplayInterval.isSome
      = true ∧
    (CardDeck.resumeAutoplay
        ((⟨0, 3, true, none, false⟩ : DeckState), (⟨1, []⟩ : TimerWorld))).1.autoplayInterval.isSome
      = true :=
  ⟨(autoplay_toggle (⟨0, 3, true, none⟩, ⟨1, []⟩)
      (⟨0, 3, true, none, false⟩, ⟨1, []⟩)).2.2.2.2.2.2.1 rfl rfl,
   (autoplay_toggle (⟨0, 3, true, none⟩, ⟨1, []⟩)
      (⟨0, 3, true, none, false⟩, ⟨1, []⟩)).2.2.2.2.2.2.2.2.2.2.2.2.2 rfl rfl⟩

end Solidaariset
